import Mathlib

/-!
Verification of the rezehor-core API client (`src/rezehor/core/ai_client.py`)
against its natural-language specification.

The embedding models the module shallowly:
* machine bytes are `Nat` values below 256, file contents are `List Nat`;
* the file system is a function `String → Option (List Nat)` (`none` means
  the path is absent or unreadable, so `open` raises `IOError`);
* the blocking transport (`anthropic.Anthropic.messages.create`) is a function
  `Request → Except ε Response`, where `ε` is the transport's exception type;
* the streaming transport (`AsyncAnthropic.messages.stream` together with its
  `text_stream`) is a function `StreamRequest → StreamOutcome ε`;
* side effects (loguru log records and transport invocations) are collected in
  an explicit event trace, in program order.
-/

/-- One content block of a multimodal message, mirroring the dict shapes built
in `ai_client.py` (`type: "text"` and `type: "image"`), with an extra variant
for response block types other than `TextBlock` (e.g. tool-use blocks), which
the extraction loop skips. -/
inductive ContentBlock where
  | text (t : String)
  | image (mediaType : String) (data : String)
  | other
deriving DecidableEq, Repr

/-- The base64 alphabet of RFC 4648, as used by Python `base64.b64encode`. -/
def base64Alphabet : List Char :=
  "ABCDEFGHIJKLMNOPQRSTUVWXYZabcdefghijklmnopqrstuvwxyz0123456789+/".toList

/-- Character of the base64 alphabet at index `n`. -/
def b64Char (n : Nat) : Char := base64Alphabet.getD n 'A'

/-- Standard base64 encoding with padding of a byte sequence, the embedding of
Python `base64.b64encode` (`f.read()` bytes in, ASCII characters out). -/
def b64encode : List Nat → List Char
  | [] => []
  | [b1] => [b64Char (b1 / 4), b64Char (b1 % 4 * 16), '=', '=']
  | [b1, b2] =>
      [b64Char (b1 / 4), b64Char (b1 % 4 * 16 + b2 / 16), b64Char (b2 % 16 * 4), '=']
  | b1 :: b2 :: b3 :: rest =>
      b64Char (b1 / 4) :: b64Char (b1 % 4 * 16 + b2 / 16) ::
        b64Char (b2 % 16 * 4 + b3 / 64) :: b64Char (b3 % 64) :: b64encode rest

/-- Base64 encoding as a string, the embedding of
`base64.b64encode(f.read()).decode()`. -/
def b64encodeStr (bytes : List Nat) : String := String.mk (b64encode bytes)

/-- The AI model configuration (`AIConfig` in `config.py`): model identifier,
token limit and sampling temperature, read-only during a call. -/
structure AIConfig where
  model : String
  max_tokens : Nat
  temperature : Rat
deriving DecidableEq, Repr

/-- The defaults of `AIConfig` in `config.py`. -/
def defaultAIConfig : AIConfig :=
  { model := "claude-sonnet-4-5", max_tokens := 4096, temperature := 7 / 10 }

/-- The request payload submitted by `send_message` via
`self.client.messages.create(...)`: model, limits, system prompt and the
ordered content blocks of the single user message. -/
structure Request where
  model : String
  max_tokens : Nat
  temperature : Rat
  system : String
  content : List ContentBlock
deriving DecidableEq, Repr

/-- The request payload submitted by `stream_message` via
`self.async_client.messages.stream(...)`; its user content is the plain
message string, not a block list. -/
structure StreamRequest where
  model : String
  max_tokens : Nat
  temperature : Rat
  system : String
  message : String
deriving DecidableEq, Repr

/-- A completed response (`anthropic.types.Message`): an ordered sequence of
content blocks. -/
structure Response where
  content : List ContentBlock
deriving DecidableEq, Repr

/-- The outcome of a streaming session: the fragments delivered by
`stream.text_stream`, followed either by clean completion or by an exception
raised mid-stream. -/
inductive StreamOutcome (ε : Type) where
  | complete (fragments : List String)
  | interrupted (fragments : List String) (e : ε)
deriving DecidableEq, Repr

/-- Errors surfaced by the client, in the spec's taxonomy: `IOError` from the
image file read, the transport exception re-raised unchanged on the blocking
path (`ApiError`), and the transport exception re-raised unchanged on the
streaming path (`StreamError`). -/
inductive RezError (ε : Type) where
  | ioError
  | apiError (e : ε)
  | streamError (e : ε)
deriving DecidableEq, Repr

/-- Observable side effects of a call, in program order: loguru log records
and transport invocations. -/
inductive Event where
  | debugLog (msg : String)
  | infoLog (msg : String)
  | errorLog (msg : String)
  | transportCall (req : Request)
  | streamCall (req : StreamRequest)
deriving DecidableEq, Repr

/-- Whether an event is an invocation of the blocking transport. -/
def isTransportCall : Event → Bool
  | Event.transportCall _ => true
  | _ => false

/-- Whether an event is an error-level log record. -/
def isErrorLog : Event → Bool
  | Event.errorLog _ => true
  | _ => false

/-- The blocking-transport requests recorded in a trace, in order. -/
def requestsSent (evs : List Event) : List Request :=
  evs.filterMap fun ev =>
    match ev with
    | Event.transportCall req => some req
    | _ => none

/-- The streaming-transport requests recorded in a trace, in order. -/
def streamRequestsSent (evs : List Event) : List StreamRequest :=
  evs.filterMap fun ev =>
    match ev with
    | Event.streamCall req => some req
    | _ => none

/-- The fixed default assistant-identity string of `ai_client.py`. -/
def DEFAULT_SYSTEM_PROMPT : String := "You are Rezehor, a helpful AI assistant."

/-- The system prompt actually submitted: the Python expression
`system_prompt if system_prompt else "You are Rezehor, ..."`, which tests
truthiness, so both `None` and the empty string fall back to the default. -/
def effectiveSystem (system_prompt : Option String) : String :=
  match system_prompt with
  | some s => if s.isEmpty then DEFAULT_SYSTEM_PROMPT else s
  | none => DEFAULT_SYSTEM_PROMPT

/-- The `text` field of a Text-variant block, `none` for every other variant
(the embedding of the `isinstance(block, TextBlock)` test). -/
def blockText : ContentBlock → Option String
  | ContentBlock.text t => some t
  | _ => none

/-- The texts of exactly the Text-variant blocks of a sequence, in order. -/
def textBlocks (blocks : List ContentBlock) : List String :=
  blocks.filterMap blockText

/-- The text-extraction loop of `send_message` (lines 95-102):
`result = ""` and then `result += block.text` for every `TextBlock` in the
response content, other block types skipped. -/
def extractText (blocks : List ContentBlock) : String :=
  blocks.foldl
    (fun result block =>
      match block with
      | ContentBlock.text t => result ++ t
      | _ => result)
    ""

/-- The request `send_message` assembles for `messages.create`. -/
def mkRequest (cfg : AIConfig) (system_prompt : Option String)
    (content : List ContentBlock) : Request :=
  { model := cfg.model, max_tokens := cfg.max_tokens,
    temperature := cfg.temperature, system := effectiveSystem system_prompt,
    content := content }

/-- The request `stream_message` assembles for `messages.stream`. -/
def mkStreamRequest (cfg : AIConfig) (system_prompt : Option String)
    (message : String) : StreamRequest :=
  { model := cfg.model, max_tokens := cfg.max_tokens,
    temperature := cfg.temperature, system := effectiveSystem system_prompt,
    message := message }

/-- The `try` block of `send_message` (lines 77-106): submit the assembled
request, on success extract the text and log the response length, on an
exception log the failure once and re-raise the exception unchanged. -/
def sendCore {ε : Type} (cfg : AIConfig) (transport : Request → Except ε Response)
    (system_prompt : Option String) (content : List ContentBlock)
    (ev : List Event) : Except (RezError ε) String × List Event :=
  let req := mkRequest cfg system_prompt content
  match transport req with
  | Except.ok response =>
      let result := extractText response.content
      (Except.ok result,
        ev ++ [Event.transportCall req,
          Event.infoLog ("Received response (" ++ toString result.length ++ " chars)")])
  | Except.error e =>
      (Except.error (RezError.apiError e),
        ev ++ [Event.transportCall req, Event.errorLog "API call failed"])

/-- `AIClient.send_message` (lines 31-106): build the content list (an Image
block from the base64-encoded file bytes when an image path is given, then
exactly one Text block holding the message), then perform the round trip.
A failing file read raises `IOError` before the `try` block, so before any
transport invocation. -/
def send_message {ε : Type} (cfg : AIConfig) (fs : String → Option (List Nat))
    (transport : Request → Except ε Response) (message : String)
    (system_prompt : Option String) (image_path : Option String) :
    Except (RezError ε) String × List Event :=
  match image_path with
  | some p =>
      match fs p with
      | none =>
          (Except.error RezError.ioError, [Event.debugLog ("Including image: " ++ p)])
      | some bytes =>
          sendCore cfg transport system_prompt
            (([] ++ [ContentBlock.image "image/png" (b64encodeStr bytes)]) ++
              [ContentBlock.text message])
            [Event.debugLog ("Including image: " ++ p)]
  | none =>
      sendCore cfg transport system_prompt ([] ++ [ContentBlock.text message]) []

/-- `AIClient.stream_message` (lines 108-140): open the streaming session with
the assembled request and yield every delivered text fragment in order; on
clean upstream completion terminate normally, on an exception log the failure
once and re-raise it unchanged. Returns the yielded fragments, the final
status and the event trace. -/
def stream_message {ε : Type} (cfg : AIConfig)
    (stransport : StreamRequest → StreamOutcome ε) (message : String)
    (system_prompt : Option String) :
    List String × Except (RezError ε) Unit × List Event :=
  let req := mkStreamRequest cfg system_prompt message
  match stransport req with
  | StreamOutcome.complete frags =>
      (frags, Except.ok (), [Event.streamCall req])
  | StreamOutcome.interrupted frags e =>
      (frags, Except.error (RezError.streamError e),
        [Event.streamCall req, Event.errorLog "Streaming failed"])

/-- The environment-backed settings of `config.py` (`Settings`): the API
credential defaults to the empty string when `ANTHROPIC_API_KEY` is absent. -/
structure Settings where
  anthropic_api_key : String
  log_level : String
  data_dir : String
deriving DecidableEq, Repr

/-- `Settings()` reading an environment: every field falls back to its
`Field(default=...)` value when its variable is absent. -/
def settingsFromEnv (env : String → Option String) : Settings :=
  { anthropic_api_key := (env "ANTHROPIC_API_KEY").getD ""
    log_level := (env "REZEHOR_LOG_LEVEL").getD "INFO"
    data_dir := (env "REZEHOR_DATA_DIR").getD "data" }

/-- The two transport handles `AIClient.__init__` creates: `Anthropic(...)`
and `AsyncAnthropic(...)`, each holding the credential it was given. -/
structure ClientHandles where
  sync_api_key : String
  async_api_key : String
deriving DecidableEq, Repr

/-- The construction-time error kind the spec prescribes for a missing or
invalid credential. The repository defines no such class and raises no such
error; the type records the spec's taxonomy so that the absence of the error
is expressible. -/
inductive InitError where
  | configError
deriving DecidableEq, Repr

/-- `AIClient.__init__` (lines 17-29), given the already-loaded settings: the
code performs no credential validation and unconditionally constructs both
transport handles with `settings.anthropic_api_key`; the external SDK
constructors accept any non-None string, the empty string included. -/
def initAIClient (settings : Settings) : Except InitError ClientHandles :=
  Except.ok { sync_api_key := settings.anthropic_api_key,
              async_api_key := settings.anthropic_api_key }

/-- Whether the image argument, when present, denotes a readable file. -/
def imageReadable (fs : String → Option (List Nat)) : Option String → Bool
  | none => true
  | some p => (fs p).isSome

/-- A stub blocking transport answering every request with one Text block. -/
def okTransport : Request → Except String Response :=
  fun _ => Except.ok { content := [ContentBlock.text "Hello!"] }

/-- A stub blocking transport raising on every request. -/
def failTransport : Request → Except String Response :=
  fun _ => Except.error "boom"

/-- A stub streaming transport emitting the fragments of the spec's test
vector and then completing. -/
def stubStream : StreamRequest → StreamOutcome String :=
  fun _ => StreamOutcome.complete ["Hel", "lo"]

/-- The system prompt the amended claim C9 prescribes: the fixed default when
the argument is absent, otherwise the supplied string. -/
def expectedSystem : Option String → String
  | none => DEFAULT_SYSTEM_PROMPT
  | some s => s

/-- Prepending a string to a joined list. -/
theorem join_cons (t : String) (ts : List String) :
    String.join (t :: ts) = t ++ String.join ts := by
  apply String.ext
  simp [String.join_eq]

/-- Sanity check of the base64 embedding on the classic RFC 4648 vectors. -/
theorem b64encode_vectors :
    b64encodeStr [77, 97, 110] = "TWFu" ∧ b64encodeStr [77, 97] = "TWE=" ∧
    b64encodeStr [77] = "TQ==" ∧ b64encodeStr [] = "" := by decide

/-- C1: for every non-empty message and no image path, send_message submits
exactly one request, whose content is exactly one block, a Text block holding
the message - no Image block, no other blocks. -/
theorem C1_no_image_single_text_block {ε : Type} (cfg : AIConfig)
    (fs : String → Option (List Nat)) (transport : Request → Except ε Response)
    (message : String) (system_prompt : Option String) (h : message ≠ "") :
    (requestsSent (send_message cfg fs transport message system_prompt none).2).map
      Request.content = [[ContentBlock.text message]] := by
  simp only [send_message, sendCore, List.nil_append]
  cases htr : transport (mkRequest cfg system_prompt [ContentBlock.text message]) <;>
    simp [htr, requestsSent, mkRequest]

/-- Witness for C1 at concrete inputs. -/
theorem C1_no_image_single_text_block_witness :
    ("Hi" : String) ≠ "" ∧
    (requestsSent (send_message defaultAIConfig (fun _ => none) okTransport "Hi"
        none none).2).map Request.content = [[ContentBlock.text "Hi"]] :=
  ⟨by decide, C1_no_image_single_text_block defaultAIConfig (fun _ => none)
    okTransport "Hi" none (by decide)⟩

/-- C2: for every message and readable image path, send_message submits
exactly one request whose content is exactly two blocks in order: an Image
block holding the base64 encoding of the file bytes with the fixed media type
"image/png", then a Text block holding the message. -/
theorem C2_image_first_then_text {ε : Type} (cfg : AIConfig)
    (fs : String → Option (List Nat)) (transport : Request → Except ε Response)
    (message : String) (system_prompt : Option String) (p : String)
    (bytes : List Nat) (h : fs p = some bytes) :
    (requestsSent (send_message cfg fs transport message system_prompt
        (some p)).2).map Request.content =
      [[ContentBlock.image "image/png" (b64encodeStr bytes),
        ContentBlock.text message]] := by
  simp only [send_message, sendCore, h, List.nil_append, List.singleton_append]
  cases htr : transport (mkRequest cfg system_prompt
      [ContentBlock.image "image/png" (b64encodeStr bytes), ContentBlock.text message]) <;>
    simp [htr, requestsSent, mkRequest]

/-- Witness for C2 at concrete inputs. -/
theorem C2_image_first_then_text_witness :
    (fun q => if q = "img.png" then some [137, 80, 78, 71] else none) "img.png"
        = some [137, 80, 78, 71] ∧
    (requestsSent (send_message defaultAIConfig
        (fun q => if q = "img.png" then some [137, 80, 78, 71] else none)
        okTransport "Hi" none (some "img.png")).2).map Request.content =
      [[ContentBlock.image "image/png" (b64encodeStr [137, 80, 78, 71]),
        ContentBlock.text "Hi"]] :=
  ⟨by decide, C2_image_first_then_text defaultAIConfig
    (fun q => if q = "img.png" then some [137, 80, 78, 71] else none)
    okTransport "Hi" none "img.png" [137, 80, 78, 71] (by decide)⟩

/-- C3: the extraction step returns the separator-free concatenation, in
sequence order, of the text fields of exactly the Text-variant blocks;
non-text blocks are skipped, the empty sequence yields the empty string, and
extraction is a total function, so it never raises. -/
theorem C3_extractText_concatenation :
    extractText [] = "" ∧
    ∀ blocks : List ContentBlock,
      extractText blocks = String.join (textBlocks blocks) := by
  refine ⟨rfl, ?_⟩
  suffices h : ∀ (blocks : List ContentBlock) (init : String),
      blocks.foldl
        (fun result block =>
          match block with
          | ContentBlock.text t => result ++ t
          | _ => result)
        init = init ++ String.join (textBlocks blocks) by
    intro blocks
    rw [extractText, h blocks "", String.empty_append]
  intro blocks
  induction blocks with
  | nil => intro init; simp [textBlocks, String.join]
  | cons b bs ih =>
    intro init
    cases b with
    | text t =>
      simp only [List.foldl_cons, ih, textBlocks, List.filterMap_cons, blockText,
        join_cons]
      rw [String.append_assoc]
    | image mt d =>
      simp only [List.foldl_cons, ih, textBlocks, List.filterMap_cons, blockText]
    | other =>
      simp only [List.foldl_cons, ih, textBlocks, List.filterMap_cons, blockText]

/-- C4: when the transport raises on every request and the optional image is
readable, send_message propagates the transport's exception unchanged as the
ApiError kind, invokes the transport exactly once (no retry) and records
exactly one error-level log entry. -/
theorem C4_transport_error_propagates {ε : Type} (cfg : AIConfig)
    (fs : String → Option (List Nat)) (transport : Request → Except ε Response)
    (message : String) (system_prompt : Option String)
    (image_path : Option String) (e : ε)
    (htr : ∀ req, transport req = Except.error e)
    (himg : imageReadable fs image_path = true) :
    (send_message cfg fs transport message system_prompt image_path).1 =
        Except.error (RezError.apiError e) ∧
    ((send_message cfg fs transport message system_prompt image_path).2).countP
        isTransportCall = 1 ∧
    ((send_message cfg fs transport message system_prompt image_path).2).countP
        isErrorLog = 1 := by
  cases image_path with
  | none =>
      simp [send_message, sendCore, htr, List.countP_cons, List.countP_nil,
        List.countP_append, isTransportCall, isErrorLog]
  | some p =>
      cases hfs : fs p with
      | none => simp [imageReadable, hfs] at himg
      | some bytes =>
          simp [send_message, sendCore, htr, hfs, List.countP_cons,
            List.countP_nil, List.countP_append, isTransportCall, isErrorLog]

/-- Witness for C4 at concrete inputs. -/
theorem C4_transport_error_propagates_witness :
    imageReadable (fun _ => none) none = true ∧
    ((send_message defaultAIConfig (fun _ => none) failTransport "Hi" none
        none).1 = Except.error (RezError.apiError "boom") ∧
      ((send_message defaultAIConfig (fun _ => none) failTransport "Hi" none
          none).2).countP isTransportCall = 1 ∧
      ((send_message defaultAIConfig (fun _ => none) failTransport "Hi" none
          none).2).countP isErrorLog = 1) :=
  ⟨rfl, C4_transport_error_propagates defaultAIConfig (fun _ => none)
    failTransport "Hi" none none "boom" (fun _ => rfl) rfl⟩

/-- C5: an absent or unreadable image path makes send_message fail with
IOError during request construction, and the transport is invoked zero times
on that call. -/
theorem C5_unreadable_image_no_network {ε : Type} (cfg : AIConfig)
    (fs : String → Option (List Nat)) (transport : Request → Except ε Response)
    (message : String) (system_prompt : Option String) (p : String)
    (h : fs p = none) :
    (send_message cfg fs transport message system_prompt (some p)).1 =
        Except.error RezError.ioError ∧
    ((send_message cfg fs transport message system_prompt (some p)).2).countP
        isTransportCall = 0 := by
  simp [send_message, h, List.countP_cons, List.countP_nil, isTransportCall]

/-- Witness for C5 at concrete inputs. -/
theorem C5_unreadable_image_no_network_witness :
    (fun (_ : String) => (none : Option (List Nat))) "missing.png" = none ∧
    ((send_message defaultAIConfig (fun _ => none) okTransport "Hi" none
        (some "missing.png")).1 = Except.error RezError.ioError ∧
      ((send_message defaultAIConfig (fun _ => none) okTransport "Hi" none
          (some "missing.png")).2).countP isTransportCall = 0) :=
  ⟨rfl, C5_unreadable_image_no_network defaultAIConfig (fun _ => none)
    okTransport "Hi" none "missing.png" rfl⟩

/-- C6: the code's actual behavior at the failing input - with
ANTHROPIC_API_KEY absent the loaded settings hold the empty credential, and
client construction nevertheless succeeds, creating both transport handles
with the empty key; no ConfigError (no such class exists in the repository)
is raised at construction. -/
theorem C6_empty_credential_constructs :
    (settingsFromEnv (fun _ => none)).anthropic_api_key = "" ∧
    initAIClient (settingsFromEnv (fun _ => none)) =
      Except.ok { sync_api_key := "", async_api_key := "" } :=
  ⟨rfl, rfl⟩

/-- C7: for every streaming transport that delivers a finite fragment
sequence and then completes, stream_message yields exactly those fragments in
delivery order and terminates without error. -/
theorem C7_stream_yields_fragments {ε : Type} (cfg : AIConfig)
    (stransport : StreamRequest → StreamOutcome ε) (message : String)
    (system_prompt : Option String) (frags : List String)
    (h : stransport (mkStreamRequest cfg system_prompt message) =
      StreamOutcome.complete frags) :
    (stream_message cfg stransport message system_prompt).1 = frags ∧
    (stream_message cfg stransport message system_prompt).2.1 = Except.ok () := by
  simp [stream_message, h]

/-- Witness for C7: the spec's stub emits "Hel" then "lo" then completes, and
the call produces exactly those two fragments and a clean termination. -/
theorem C7_stream_yields_fragments_witness :
    (stream_message defaultAIConfig stubStream "Hi" none).1 = ["Hel", "lo"] ∧
    (stream_message defaultAIConfig stubStream "Hi" none).2.1 = Except.ok () :=
  C7_stream_yields_fragments defaultAIConfig stubStream "Hi" none
    ["Hel", "lo"] rfl

/-- C9 counterexample: supplying the empty string as the system prompt does
NOT submit the supplied string - the one request sent carries the fixed
default, which differs from the supplied empty string. -/
theorem C9_empty_prompt_not_used :
    (requestsSent (send_message defaultAIConfig (fun _ => none) okTransport
        "Hi" (some "") none).2).map Request.system = [DEFAULT_SYSTEM_PROMPT] ∧
    DEFAULT_SYSTEM_PROMPT ≠ "" := by
  constructor
  · rfl
  · decide

/-- C9 amended: when the system prompt argument is absent, every submitted
request (on either path) carries the fixed default assistant-identity string;
when a non-empty system prompt is supplied, every submitted request carries
that supplied string. -/
theorem C9_system_prompt_selection {ε : Type} (cfg : AIConfig)
    (fs : String → Option (List Nat)) (transport : Request → Except ε Response)
    (stransport : StreamRequest → StreamOutcome ε) (message : String)
    (image_path : Option String) (system_prompt : Option String)
    (h : system_prompt = none ∨ ∃ s, system_prompt = some s ∧ s ≠ "") :
    ((requestsSent (send_message cfg fs transport message system_prompt
        image_path).2).all
      (fun req => req.system == expectedSystem system_prompt)) = true ∧
    ((streamRequestsSent (stream_message cfg stransport message
        system_prompt).2.2).all
      (fun req => req.system == expectedSystem system_prompt)) = true := by
  have hsys : effectiveSystem system_prompt = expectedSystem system_prompt := by
    rcases h with rfl | ⟨s, rfl, hs⟩
    · rfl
    · simp [effectiveSystem, expectedSystem, String.isEmpty_iff, hs]
  constructor
  · cases image_path with
    | none =>
        simp only [send_message, sendCore, List.nil_append]
        cases htr : transport (mkRequest cfg system_prompt
            [ContentBlock.text message]) <;>
          simp [htr, requestsSent, mkRequest, hsys]
    | some p =>
        cases hfs : fs p with
        | none => simp [send_message, hfs, requestsSent]
        | some bytes =>
            simp only [send_message, sendCore, hfs, List.nil_append,
              List.singleton_append]
            cases htr : transport (mkRequest cfg system_prompt
                [ContentBlock.image "image/png" (b64encodeStr bytes),
                  ContentBlock.text message]) <;>
              simp [htr, requestsSent, mkRequest, hsys]
  · simp only [stream_message]
    cases hst : stransport (mkStreamRequest cfg system_prompt message) <;>
      simp [hst, streamRequestsSent, mkStreamRequest, hsys]

/-- Witness for C9 at concrete inputs with a non-empty supplied prompt. -/
theorem C9_system_prompt_selection_witness :
    ((some "sys" : Option String) = none ∨
      ∃ s, (some "sys" : Option String) = some s ∧ s ≠ "") ∧
    (((requestsSent (send_message defaultAIConfig (fun _ => none) okTransport
        "Hi" (some "sys") none).2).all
      (fun req => req.system == expectedSystem (some "sys"))) = true ∧
    ((streamRequestsSent (stream_message defaultAIConfig stubStream "Hi"
        (some "sys")).2.2).all
      (fun req => req.system == expectedSystem (some "sys"))) = true) :=
  ⟨Or.inr ⟨"sys", rfl, by decide⟩,
    C9_system_prompt_selection defaultAIConfig (fun _ => none) okTransport
      stubStream "Hi" none (some "sys") (Or.inr ⟨"sys", rfl, by decide⟩)⟩

/-- C10: supplying the empty string as the system prompt behaves exactly as
omitting the argument, on both the blocking and the streaming path: the
whole observable outcome (result, fragments, status and event trace) is the
same, so the request goes out with the fixed default and the caller's empty
string is never forwarded. -/
theorem C10_empty_prompt_same_as_omitted {ε : Type} (cfg : AIConfig)
    (fs : String → Option (List Nat)) (transport : Request → Except ε Response)
    (stransport : StreamRequest → StreamOutcome ε) (message : String)
    (image_path : Option String) :
    send_message cfg fs transport message (some "") image_path =
      send_message cfg fs transport message none image_path ∧
    stream_message cfg stransport message (some "") =
      stream_message cfg stransport message none :=
  ⟨rfl, rfl⟩
